import Mathlib

/-!
Shallow embedding of the dual-transport failover communication channel from
`src/traits/networking/web_sever_libp2p_fallback.rs` (HotShot).

The channel composes a primary transport (the web-server network, accessor
`network()`) with a secondary transport (the libp2p network, accessor
`fallback()`).  Each underlying transport operation is external to this file;
we model a transport as a record of per-call result functions (what the next
call with the given arguments would return) plus a readiness flag and an
abstract count of suspension steps for `wait_for_ready`.  Channel operations
are translated statement-by-statement from the Rust source; each returns its
result paired with a trace of the transport calls it issued, in program
order, so that call counts, arguments and ordering are provable.
-/

/-- Discriminator selecting which logical inbound queue to drain
(`TransmitType` in hotshot-types). -/
inductive TransmitType : Type
| direct : TransmitType
| broadcast : TransmitType
deriving DecidableEq, Repr

/-- Message envelope: an opaque payload plus the view number that
`get_view_number()` exposes (`Message` + `ViewMessage` in hotshot-types). -/
structure Message (P : Type) : Type where
kind : P
view_number : Nat
deriving DecidableEq, Repr

/-- `message.get_view_number()` accessor. -/
def Message.get_view_number {P : Type} (m : Message P) : Nat :=
m.view_number

/-- Membership oracle (`Membership::get_committee` in hotshot-types; renamed
because Lean already has a `Membership` class): `get_committee(view_number)`
returns the recipient set for that view (modelled as a list of identity
keys). -/
structure MembershipOracle (K : Type) : Type where
get_committee : Nat → List K

/-- One concrete transport, as observed by a single channel call: the result
each operation would produce for given arguments, the readiness flag
`is_ready` would report, and the number of abstract suspension steps its
`wait_for_ready` takes before resolving.  Both the web-server network and the
libp2p network instantiate this capability set. -/
structure Transport (P K E : Type) : Type where
broadcastResult : Message P → List K → Except E Unit
directResult : Message P → K → Except E Unit
recvResult : TransmitType → Except E (List (Message P))
lookupResult : K → Except E Unit
ready : Bool
waitSteps : Nat
injectResult : Nat × Bool × Bool → Except E Unit

/-- Observable events of one channel call: which transport was invoked, with
which operation and arguments, plus membership-oracle consultations and the
suspension/resolution steps of `wait_for_ready`. -/
inductive Event (P K E : Type) : Type
| getCommittee (view : Nat) (result : List K) : Event P K E
| primaryBroadcast (m : Message P) (recipients : List K) : Event P K E
| secondaryBroadcast (m : Message P) (recipients : List K) : Event P K E
| primaryDirect (m : Message P) (recipient : K) : Event P K E
| secondaryDirect (m : Message P) (recipient : K) : Event P K E
| primaryRecv (t : TransmitType) : Event P K E
| secondaryRecv (t : TransmitType) : Event P K E
| primaryLookup (k : K) : Event P K E
| secondaryLookup (k : K) : Event P K E
| primaryIsReady : Event P K E
| secondaryIsReady : Event P K E
| primaryWaitStep : Event P K E
| primaryWaitResolved : Event P K E
| secondaryWaitStep : Event P K E
| secondaryWaitResolved : Event P K E
| primaryInject (tuple : Nat × Bool × Bool) : Event P K E
| secondaryInject (tuple : Nat × Bool × Bool) : Event P K E
deriving DecidableEq, Repr

/-- Number of occurrences of an event in a trace. -/
def countEvent {P K E : Type} [DecidableEq P] [DecidableEq K] [DecidableEq E]
(ev : Event P K E) : List (Event P K E) → Nat
| [] => 0
| e :: es => (if e = ev then 1 else 0) + countEvent ev es

/-- The failover channel: owns the pair (web-server network, libp2p network),
mirroring the `networks: Arc<(WebServerNetwork, Libp2pNetwork)>` field. -/
structure WebServerWithFallbackCommChannel (P K E : Type) : Type where
networks : Transport P K E × Transport P K E

namespace WebServerWithFallbackCommChannel

variable {P K E : Type}

/-- Accessor `network()`: the primary (web-server) transport, `networks.0`. -/
def network (c : WebServerWithFallbackCommChannel P K E) : Transport P K E :=
c.networks.1

/-- Accessor `fallback()`: the secondary (libp2p) transport, `networks.1`. -/
def fallback (c : WebServerWithFallbackCommChannel P K E) : Transport P K E :=
c.networks.2

/-- `wait_for_ready`: `self.network().wait_for_ready().await;
self.fallback().wait_for_ready().await` — the primary wait runs to full
resolution, then the secondary wait runs; the call resolves at the end of the
trace. -/
def wait_for_ready (c : WebServerWithFallbackCommChannel P K E) :
List (Event P K E) :=
(List.replicate c.network.waitSteps Event.primaryWaitStep
++ [Event.primaryWaitResolved])
++ (List.replicate c.fallback.waitSteps Event.secondaryWaitStep
++ [Event.secondaryWaitResolved])

/-- `is_ready`: `self.network().is_ready().await && self.fallback().is_ready().await`.
Rust `&&` is short-circuiting: the secondary query runs only when the primary
reported ready. -/
def is_ready (c : WebServerWithFallbackCommChannel P K E) :
Bool × List (Event P K E) :=
if c.network.ready then
(c.fallback.ready, [Event.primaryIsReady, Event.secondaryIsReady])
else
(false, [Event.primaryIsReady])

/-- `broadcast_message`: computes `recipients = get_committee(election,
message.get_view_number())` once, builds the secondary (fallback) send with
clones of the message and recipients and the primary send with the originals,
joins both, and matches `(Err(e), Err(_)) => Err(e), _ => Ok(())` on the pair
(fallback result, network result). -/
def broadcast_message (c : WebServerWithFallbackCommChannel P K E)
(message : Message P) (election : MembershipOracle K) :
Except E Unit × List (Event P K E) :=
let recipients := election.get_committee message.get_view_number
let fallbackRes := c.fallback.broadcastResult message recipients
let networkRes := c.network.broadcastResult message recipients
let trace := [Event.getCommittee message.get_view_number recipients,
Event.secondaryBroadcast message recipients,
Event.primaryBroadcast message recipients]
match fallbackRes, networkRes with
| Except.error e, Except.error _ => (Except.error e, trace)
| _, _ => (Except.ok (), trace)

/-- `direct_message`: tries the primary; on `Ok(_)` returns `Ok(())` without
touching the secondary; on `Err(e)` calls the secondary once with the same
message and recipient and returns its result verbatim. -/
def direct_message (c : WebServerWithFallbackCommChannel P K E)
(message : Message P) (recipient : K) :
Except E Unit × List (Event P K E) :=
match c.network.directResult message recipient with
| Except.ok _ => (Except.ok (), [Event.primaryDirect message recipient])
| Except.error _ =>
(c.fallback.directResult message recipient,
[Event.primaryDirect message recipient,
Event.secondaryDirect message recipient])

/-- `recv_msgs`: drains the primary queue for the transmit type; on `Ok(msgs)`
returns them; on `Err(e)` returns the secondary's `recv_msgs` result for the
same transmit type verbatim. -/
def recv_msgs (c : WebServerWithFallbackCommChannel P K E)
(transmit_type : TransmitType) :
Except E (List (Message P)) × List (Event P K E) :=
match c.network.recvResult transmit_type with
| Except.ok msgs => (Except.ok msgs, [Event.primaryRecv transmit_type])
| Except.error _ =>
(c.fallback.recvResult transmit_type,
[Event.primaryRecv transmit_type, Event.secondaryRecv transmit_type])

/-- `lookup_node`: tries the primary with the key; on `Ok` returns it; on
`Err(e)` calls the secondary once with the same key and returns its result
verbatim. -/
def lookup_node (c : WebServerWithFallbackCommChannel P K E) (pk : K) :
Except E Unit × List (Event P K E) :=
match c.network.lookupResult pk with
| Except.ok msgs => (Except.ok msgs, [Event.primaryLookup pk])
| Except.error _ =>
(c.fallback.lookupResult pk,
[Event.primaryLookup pk, Event.secondaryLookup pk])

/-- `inject_consensus_info`: forwarded to the primary (web-server) transport
only; its result is returned directly, with no fallback. -/
def inject_consensus_info (c : WebServerWithFallbackCommChannel P K E)
(tuple : Nat × Bool × Bool) :
Except E Unit × List (Event P K E) :=
(c.network.injectResult tuple, [Event.primaryInject tuple])

end WebServerWithFallbackCommChannel

open WebServerWithFallbackCommChannel

/-- General facts about `countEvent` used by the trace theorems. -/
theorem countEvent_append {P K E : Type} [DecidableEq P] [DecidableEq K]
[DecidableEq E] (ev : Event P K E) (l₁ l₂ : List (Event P K E)) :
countEvent ev (l₁ ++ l₂) = countEvent ev l₁ + countEvent ev l₂ := by
induction l₁ with
| nil => simp [countEvent]
| cons e es ih => simp [countEvent, ih, Nat.add_assoc]

theorem countEvent_replicate_ne {P K E : Type} [DecidableEq P] [DecidableEq K]
[DecidableEq E] (ev a : Event P K E) (n : Nat) (h : a ≠ ev) :
countEvent ev (List.replicate n a) = 0 := by
induction n with
| zero => simp [countEvent]
| succ n ih => simp [List.replicate_succ, countEvent, h, ih]

theorem takeWhile_replicate_append {α : Type} (p : α → Bool) (a : α)
(h : p a = true) (n : Nat) (l : List α) :
List.takeWhile p (List.replicate n a ++ l)
= List.replicate n a ++ List.takeWhile p l := by
induction n with
| zero => simp
| succ n ih => simp [List.replicate_succ, List.takeWhile_cons, h, ih]

theorem dropWhile_replicate_append {α : Type} (p : α → Bool) (a : α)
(h : p a = true) (n : Nat) (l : List α) :
List.dropWhile p (List.replicate n a ++ l) = List.dropWhile p l := by
induction n with
| zero => simp
| succ n ih => simp [List.replicate_succ, List.dropWhile_cons, h, ih]

/-- A transport whose every operation succeeds. -/
def okTransport : Transport Nat Nat Nat :=
⟨fun _ _ => Except.ok (), fun _ _ => Except.ok (),
fun _ => Except.ok [⟨2, 5⟩], fun _ => Except.ok (),
true, 1, fun _ => Except.ok ()⟩

/-- A transport whose every operation fails with error 7 and that reports
not-ready. -/
def errTransport7 : Transport Nat Nat Nat :=
⟨fun _ _ => Except.error 7, fun _ _ => Except.error 7,
fun _ => Except.error 7, fun _ => Except.error 7,
false, 2, fun _ => Except.error 7⟩

/-- A transport whose every operation fails with error 9 but that reports
ready. -/
def errTransport9 : Transport Nat Nat Nat :=
⟨fun _ _ => Except.error 9, fun _ _ => Except.error 9,
fun _ => Except.error 9, fun _ => Except.error 9,
true, 0, fun _ => Except.error 9⟩

/-- Channel whose primary and secondary transports both succeed. -/
def chanOkOk : WebServerWithFallbackCommChannel Nat Nat Nat :=
⟨(okTransport, okTransport)⟩

/-- Channel whose primary succeeds and whose secondary fails with error 9. -/
def chanOkErr : WebServerWithFallbackCommChannel Nat Nat Nat :=
⟨(okTransport, errTransport9)⟩

/-- Channel whose primary fails with error 7 and whose secondary succeeds. -/
def chanErrOk : WebServerWithFallbackCommChannel Nat Nat Nat :=
⟨(errTransport7, okTransport)⟩

/-- Channel whose primary fails with error 7 and whose secondary fails with
error 9. -/
def chanErrErr : WebServerWithFallbackCommChannel Nat Nat Nat :=
⟨(errTransport7, errTransport9)⟩

/-- A concrete message with view number 4. -/
def msg0 : Message Nat := ⟨0, 4⟩

/-- A concrete membership oracle: committee of view v is [v, v + 1]. -/
def memb0 : MembershipOracle Nat := ⟨fun v => [v, v + 1]⟩

/-- C1: for every pair of transport outcomes, `broadcast_message` returns
`Ok(())` if at least one transport's broadcast succeeds, and when both fail
it returns exactly the secondary (fallback) transport's error, discarding the
primary's. -/
theorem broadcast_message_outcome_policy {P K E : Type}
(c : WebServerWithFallbackCommChannel P K E) (message : Message P)
(election : MembershipOracle K) :
((c.network.broadcastResult message
(election.get_committee message.get_view_number) = Except.ok ()
∨ c.fallback.broadcastResult message
(election.get_committee message.get_view_number) = Except.ok ()) →
(c.broadcast_message message election).1 = Except.ok ())
∧ (∀ ep es : E,
c.network.broadcastResult message
(election.get_committee message.get_view_number) = Except.error ep →
c.fallback.broadcastResult message
(election.get_committee message.get_view_number) = Except.error es →
(c.broadcast_message message election).1 = Except.error es) := by
  rcases hs : c.fallback.broadcastResult message
      (election.get_committee message.get_view_number) with es0 | u <;>
    rcases hp : c.network.broadcastResult message
      (election.get_committee message.get_view_number) with ep0 | v <;>
    simp [WebServerWithFallbackCommChannel.broadcast_message, hs, hp]

/-- C1 witness: with primary succeeding and secondary failing the broadcast
returns Ok; with both failing (errors 7 and 9) it returns the secondary's
error 9. -/
theorem broadcast_message_outcome_policy_witness :
(chanOkErr.broadcast_message msg0 memb0).1 = Except.ok ()
∧ (chanErrErr.broadcast_message msg0 memb0).1 = Except.error 9 :=
⟨(broadcast_message_outcome_policy chanOkErr msg0 memb0).1 (Or.inl rfl),
(broadcast_message_outcome_policy chanErrErr msg0 memb0).2 7 9 rfl rfl⟩

/-- C2: `direct_message` returns Ok and never invokes the secondary when the
primary succeeds; when the primary fails, the secondary is invoked exactly
once with the same message and recipient and its result is returned
verbatim. -/
theorem direct_message_fallback_policy {P K E : Type} [DecidableEq P]
[DecidableEq K] [DecidableEq E]
(c : WebServerWithFallbackCommChannel P K E) (message : Message P)
(recipient : K) :
(c.network.directResult message recipient = Except.ok () →
(c.direct_message message recipient).1 = Except.ok ()
∧ countEvent (Event.secondaryDirect message recipient)
(c.direct_message message recipient).2 = 0)
∧ (∀ e : E, c.network.directResult message recipient = Except.error e →
(c.direct_message message recipient).1
= c.fallback.directResult message recipient
∧ countEvent (Event.secondaryDirect message recipient)
(c.direct_message message recipient).2 = 1) := by
constructor
· intro h
  constructor <;>
  simp [WebServerWithFallbackCommChannel.direct_message, h, countEvent]
· intro e h
  constructor <;>
  simp [WebServerWithFallbackCommChannel.direct_message, h, countEvent]

/-- C2 witness: at a channel with a succeeding primary the call is Ok with no
secondary invocation; at a channel whose primary fails with error 7 the
secondary is invoked once and its (successful) result is returned. -/
theorem direct_message_fallback_policy_witness :
((chanOkOk.direct_message msg0 3).1 = Except.ok ()
∧ countEvent (Event.secondaryDirect msg0 3)
(chanOkOk.direct_message msg0 3).2 = 0)
∧ ((chanErrOk.direct_message msg0 3).1
= chanErrOk.fallback.directResult msg0 3
∧ countEvent (Event.secondaryDirect msg0 3)
(chanErrOk.direct_message msg0 3).2 = 1) :=
⟨(direct_message_fallback_policy chanOkOk msg0 3).1 rfl,
(direct_message_fallback_policy chanErrOk msg0 3).2 7 rfl⟩

/-- C3: `recv_msgs` returns the primary's drained messages on success (no
secondary invocation); on primary failure it returns the secondary's
`recv_msgs` result for the same transmit type verbatim; any successful
result is exactly one transport's output, never a merge. -/
theorem recv_msgs_fallback_policy {P K E : Type} [DecidableEq P]
[DecidableEq K] [DecidableEq E]
(c : WebServerWithFallbackCommChannel P K E) (transmit_type : TransmitType) :
(∀ msgs : List (Message P),
c.network.recvResult transmit_type = Except.ok msgs →
(c.recv_msgs transmit_type).1 = Except.ok msgs
∧ countEvent (Event.secondaryRecv transmit_type)
(c.recv_msgs transmit_type).2 = 0)
∧ (∀ e : E, c.network.recvResult transmit_type = Except.error e →
(c.recv_msgs transmit_type).1 = c.fallback.recvResult transmit_type
∧ countEvent (Event.secondaryRecv transmit_type)
(c.recv_msgs transmit_type).2 = 1)
∧ (∀ msgs : List (Message P),
(c.recv_msgs transmit_type).1 = Except.ok msgs →
c.network.recvResult transmit_type = Except.ok msgs
∨ c.fallback.recvResult transmit_type = Except.ok msgs) := by
  refine ⟨?_, ?_, ?_⟩
  · intro msgs h
    constructor <;>
      simp [WebServerWithFallbackCommChannel.recv_msgs, h, countEvent]
  · intro e h
    constructor <;>
      simp [WebServerWithFallbackCommChannel.recv_msgs, h, countEvent]
  · intro msgs h
    rcases hp : c.network.recvResult transmit_type with ep | v <;>
      simp [WebServerWithFallbackCommChannel.recv_msgs, hp] at h <;>
      simp [h]

/-- C3 witness: at a channel with a succeeding primary the primary's queue
contents come back with no secondary invocation; at a channel whose primary
fails with error 7 the secondary's result is returned after exactly one
secondary invocation. -/
theorem recv_msgs_fallback_policy_witness :
((chanOkOk.recv_msgs TransmitType.direct).1 = Except.ok [⟨2, 5⟩]
∧ countEvent (Event.secondaryRecv TransmitType.direct)
(chanOkOk.recv_msgs TransmitType.direct).2 = 0)
∧ ((chanErrOk.recv_msgs TransmitType.direct).1
= chanErrOk.fallback.recvResult TransmitType.direct
∧ countEvent (Event.secondaryRecv TransmitType.direct)
(chanErrOk.recv_msgs TransmitType.direct).2 = 1) :=
⟨(recv_msgs_fallback_policy chanOkOk TransmitType.direct).1 [⟨2, 5⟩] rfl,
(recv_msgs_fallback_policy chanErrOk TransmitType.direct).2.1 7 rfl⟩

/-- C4: `lookup_node` follows the same one-level sequential fallback as
`direct_message`: primary Ok means Ok with no secondary invocation; primary
Err means the secondary is invoked exactly once with the same identity key
and its result is returned verbatim. -/
theorem lookup_node_fallback_policy {P K E : Type} [DecidableEq P]
[DecidableEq K] [DecidableEq E]
(c : WebServerWithFallbackCommChannel P K E) (pk : K) :
(c.network.lookupResult pk = Except.ok () →
(c.lookup_node pk).1 = Except.ok ()
∧ countEvent (Event.secondaryLookup pk) (c.lookup_node pk).2 = 0)
∧ (∀ e : E, c.network.lookupResult pk = Except.error e →
(c.lookup_node pk).1 = c.fallback.lookupResult pk
∧ countEvent (Event.secondaryLookup pk) (c.lookup_node pk).2 = 1) := by
  constructor
  · intro h
    constructor <;>
      simp [WebServerWithFallbackCommChannel.lookup_node, h, countEvent]
  · intro e h
    constructor <;>
      simp [WebServerWithFallbackCommChannel.lookup_node, h, countEvent]

/-- C4 witness: succeeding primary gives Ok with no secondary lookup; primary
failing with error 7 gives the secondary's result after exactly one secondary
lookup with the same key. -/
theorem lookup_node_fallback_policy_witness :
((chanOkOk.lookup_node 6).1 = Except.ok ()
∧ countEvent (Event.secondaryLookup 6) (chanOkOk.lookup_node 6).2 = 0)
∧ ((chanErrOk.lookup_node 6).1 = chanErrOk.fallback.lookupResult 6
∧ countEvent (Event.secondaryLookup 6) (chanErrOk.lookup_node 6).2 = 1) :=
⟨(lookup_node_fallback_policy chanOkOk 6).1 rfl,
(lookup_node_fallback_policy chanErrOk 6).2 7 rfl⟩

/-- C5 counterexample: at a channel whose primary reports not-ready, the call
returns false but the secondary transport is never queried — `&&` in the
source short-circuits, so `is_ready` is not "evaluated by querying both
transports on every call". -/
theorem is_ready_queries_both_counterexample :
(chanErrOk.is_ready).1 = false
∧ countEvent Event.secondaryIsReady (chanErrOk.is_ready).2 = 0 := by
  constructor <;> rfl

/-- C5 (amended): `is_ready` returns the conjunction of the two transports'
readiness across all four boolean combinations; the primary is queried on
every call, while the secondary is queried exactly when the primary reported
ready (short-circuit evaluation of `&&`). -/
theorem is_ready_conjunction_shortcircuit {P K E : Type} [DecidableEq P]
[DecidableEq K] [DecidableEq E]
(c : WebServerWithFallbackCommChannel P K E) :
(c.is_ready).1 = (c.network.ready && c.fallback.ready)
∧ countEvent Event.primaryIsReady (c.is_ready).2 = 1
∧ countEvent Event.secondaryIsReady (c.is_ready).2
= (if c.network.ready then 1 else 0) := by
  rcases h : c.network.ready <;>
    simp [WebServerWithFallbackCommChannel.is_ready, h, countEvent]

/-- C6: `inject_consensus_info` returns the primary transport's result with
no fallback; the primary is invoked exactly once and the secondary is never
invoked, whatever the tuple and whatever the primary's outcome. -/
theorem inject_consensus_info_primary_only {P K E : Type} [DecidableEq P]
[DecidableEq K] [DecidableEq E]
(c : WebServerWithFallbackCommChannel P K E) (tuple : Nat × Bool × Bool) :
(c.inject_consensus_info tuple).1 = c.network.injectResult tuple
∧ countEvent (Event.primaryInject tuple)
(c.inject_consensus_info tuple).2 = 1
∧ ∀ t2 : Nat × Bool × Bool,
countEvent (Event.secondaryInject t2) (c.inject_consensus_info tuple).2 = 0 := by
  refine ⟨rfl, ?_, ?_⟩
  · simp [WebServerWithFallbackCommChannel.inject_consensus_info, countEvent]
  · intro t2
    simp [WebServerWithFallbackCommChannel.inject_consensus_info, countEvent]

/-- C8: in every `broadcast_message` call, whatever the two transports'
outcomes, both transports are issued the send exactly once — with the
recipient set computed from the oracle at the message's view number — and
neither send is skipped on the other's success (a join, not a race). -/
theorem broadcast_message_joins_both {P K E : Type} [DecidableEq P]
[DecidableEq K] [DecidableEq E]
(c : WebServerWithFallbackCommChannel P K E) (message : Message P)
(election : MembershipOracle K) :
countEvent (Event.primaryBroadcast message
(election.get_committee message.get_view_number))
(c.broadcast_message message election).2 = 1
∧ countEvent (Event.secondaryBroadcast message
(election.get_committee message.get_view_number))
(c.broadcast_message message election).2 = 1 := by
  rcases hs : c.fallback.broadcastResult message
      (election.get_committee message.get_view_number) with es0 | u <;>
    rcases hp : c.network.broadcastResult message
      (election.get_committee message.get_view_number) with ep0 | v <;>
    simp [WebServerWithFallbackCommChannel.broadcast_message, hs, hp,
      countEvent]

/-- C10: every `broadcast_message` call consults the membership oracle
exactly once and passes both transports the identical message and the
identical recipient set that the single consultation produced; the trace has
exactly those three events. -/
theorem broadcast_message_single_committee_consultation {P K E : Type}
[DecidableEq P] [DecidableEq K] [DecidableEq E]
(c : WebServerWithFallbackCommChannel P K E) (message : Message P)
(election : MembershipOracle K) :
countEvent (Event.getCommittee message.get_view_number
(election.get_committee message.get_view_number))
(c.broadcast_message message election).2 = 1
∧ (c.broadcast_message message election).2
= [Event.getCommittee message.get_view_number
(election.get_committee message.get_view_number),
Event.secondaryBroadcast message
(election.get_committee message.get_view_number),
Event.primaryBroadcast message
(election.get_committee message.get_view_number)] := by
  rcases hs : c.fallback.broadcastResult message
      (election.get_committee message.get_view_number) with es0 | u <;>
    rcases hp : c.network.broadcastResult message
      (election.get_committee message.get_view_number) with ep0 | v <;>
    simp [WebServerWithFallbackCommChannel.broadcast_message, hs, hp,
      countEvent]

theorem getLast_eq_of_append_singleton {α : Type} (l : List α) (a : α) :
(l ++ [a]).getLast? = some a := by
induction l with
| nil => rfl
| cons x xs ih => rw [List.cons_append, List.getLast?_cons, ih]; rfl

/-- C7: in every `wait_for_ready` call the primary wait resolves exactly
once, the secondary wait resolves exactly once, the channel call ends only
with the secondary's resolution, no secondary wait activity occurs before
the primary's resolution, and no primary wait activity occurs after it:
strictly sequential composition, never a parallel join. -/
theorem wait_for_ready_sequential {P K E : Type} [DecidableEq P]
[DecidableEq K] [DecidableEq E]
(c : WebServerWithFallbackCommChannel P K E) :
countEvent Event.primaryWaitResolved c.wait_for_ready = 1
∧ countEvent Event.secondaryWaitResolved c.wait_for_ready = 1
∧ (c.wait_for_ready).getLast? = some Event.secondaryWaitResolved
∧ countEvent Event.secondaryWaitStep
(List.takeWhile (fun e => e != Event.primaryWaitResolved)
c.wait_for_ready) = 0
∧ countEvent Event.secondaryWaitResolved
(List.takeWhile (fun e => e != Event.primaryWaitResolved)
c.wait_for_ready) = 0
∧ countEvent Event.primaryWaitStep
(List.dropWhile (fun e => e != Event.primaryWaitResolved)
c.wait_for_ready) = 0 := by
  have htake : List.takeWhile
      (fun e => e != (Event.primaryWaitResolved : Event P K E))
      c.wait_for_ready
      = List.replicate c.network.waitSteps Event.primaryWaitStep := by
    unfold WebServerWithFallbackCommChannel.wait_for_ready
    rw [List.append_assoc, takeWhile_replicate_append _ _ (by simp)]
    simp [List.takeWhile_cons]
  have hdrop : List.dropWhile
      (fun e => e != (Event.primaryWaitResolved : Event P K E))
      c.wait_for_ready
      = Event.primaryWaitResolved ::
        (List.replicate c.fallback.waitSteps Event.secondaryWaitStep
        ++ [Event.secondaryWaitResolved]) := by
    unfold WebServerWithFallbackCommChannel.wait_for_ready
    rw [List.append_assoc, dropWhile_replicate_append _ _ (by simp)]
    simp [List.dropWhile_cons]
  refine ⟨?_, ?_, ?_, ?_, ?_, ?_⟩
  · unfold WebServerWithFallbackCommChannel.wait_for_ready
    rw [countEvent_append, countEvent_append, countEvent_append,
      countEvent_replicate_ne _ _ _ (by simp),
      countEvent_replicate_ne _ _ _ (by simp)]
    simp [countEvent]
  · unfold WebServerWithFallbackCommChannel.wait_for_ready
    rw [countEvent_append, countEvent_append, countEvent_append,
      countEvent_replicate_ne _ _ _ (by simp),
      countEvent_replicate_ne _ _ _ (by simp)]
    simp [countEvent]
  · unfold WebServerWithFallbackCommChannel.wait_for_ready
    rw [← List.append_assoc]
    exact getLast_eq_of_append_singleton _ _
  · rw [htake, countEvent_replicate_ne _ _ _ (by simp)]
  · rw [htake, countEvent_replicate_ne _ _ _ (by simp)]
  · rw [hdrop]
    simp [countEvent, countEvent_append]
    exact countEvent_replicate_ne _ _ _ (by simp)

/-- C9: every error any channel operation returns is exactly a NetworkError
value produced by one of the two underlying transports in that same call —
the secondary's for the fallback operations and for the broadcast
double-failure case, the primary's for `inject_consensus_info`; the channel
never synthesizes an error of its own. -/
theorem channel_error_provenance {P K E : Type}
(c : WebServerWithFallbackCommChannel P K E) (message : Message P)
(election : MembershipOracle K) (recipient : K)
(transmit_type : TransmitType) (tuple : Nat × Bool × Bool) :
(∀ e : E, (c.broadcast_message message election).1 = Except.error e →
c.fallback.broadcastResult message
(election.get_committee message.get_view_number) = Except.error e)
∧ (∀ e : E, (c.direct_message message recipient).1 = Except.error e →
c.fallback.directResult message recipient = Except.error e)
∧ (∀ e : E, (c.recv_msgs transmit_type).1 = Except.error e →
c.fallback.recvResult transmit_type = Except.error e)
∧ (∀ e : E, (c.lookup_node recipient).1 = Except.error e →
c.fallback.lookupResult recipient = Except.error e)
∧ (∀ e : E, (c.inject_consensus_info tuple).1 = Except.error e →
c.network.injectResult tuple = Except.error e) := by
  refine ⟨?_, ?_, ?_, ?_, ?_⟩
  · intro e h
    rcases hs : c.fallback.broadcastResult message
        (election.get_committee message.get_view_number) with es0 | u <;>
      rcases hp : c.network.broadcastResult message
        (election.get_committee message.get_view_number) with ep0 | v <;>
      simp [WebServerWithFallbackCommChannel.broadcast_message, hs, hp]
        at h <;> simp [h]
  · intro e h
    rcases hp : c.network.directResult message recipient with ep0 | v <;>
      simp [WebServerWithFallbackCommChannel.direct_message, hp] at h <;>
      simp [h]
  · intro e h
    rcases hp : c.network.recvResult transmit_type with ep0 | v <;>
      simp [WebServerWithFallbackCommChannel.recv_msgs, hp] at h <;>
      simp [h]
  · intro e h
    rcases hp : c.network.lookupResult recipient with ep0 | v <;>
      simp [WebServerWithFallbackCommChannel.lookup_node, hp] at h <;>
      simp [h]
  · intro e h
    exact h

/-- C9 witness: at the channel whose primary fails with error 7 and whose
secondary fails with error 9, each operation's surfaced error is traced back
to the transport that produced it. -/
theorem channel_error_provenance_witness :
chanErrErr.fallback.broadcastResult msg0
(memb0.get_committee msg0.get_view_number) = Except.error 9
∧ chanErrErr.fallback.directResult msg0 3 = Except.error 9
∧ chanErrErr.fallback.recvResult TransmitType.broadcast = Except.error 9
∧ chanErrErr.fallback.lookupResult 3 = Except.error 9
∧ chanErrErr.network.injectResult (1, true, false) = Except.error 7 :=
⟨(channel_error_provenance chanErrErr msg0 memb0 3 TransmitType.broadcast
(1, true, false)).1 9 rfl,
(channel_error_provenance chanErrErr msg0 memb0 3 TransmitType.broadcast
(1, true, false)).2.1 9 rfl,
(channel_error_provenance chanErrErr msg0 memb0 3 TransmitType.broadcast
(1, true, false)).2.2.1 9 rfl,
(channel_error_provenance chanErrErr msg0 memb0 3 TransmitType.broadcast
(1, true, false)).2.2.2.1 9 rfl,
(channel_error_provenance chanErrErr msg0 memb0 3 TransmitType.broadcast
(1, true, false)).2.2.2.2 7 rfl⟩
